import Mathlib

/-!
Verification of the TinyHome front-end's scroll/wheel-driven 3D showcase:
a shallow embedding of the wheel-input stage machine, the anchor
("positioning sphere") registry, the distance/focus LOD selector and the
camera director state machine, with theorems checking the behavioural
specification against these definitions.

All numeric quantities are modelled as exact rationals (the source works
with JavaScript doubles; every constant appearing in the source is a
decimal literal, representable exactly in ℚ).  Transcendental functions
(cos, sin, atan2, π) are abstracted as parameters of the definitions that
use them, so every definition stays executable; the properties checked
here concern which angles are fed to those functions and how their
results are combined, never particular trigonometric values.
-/

namespace TinyHome


/-- A 3D vector with rational coordinates. -/
structure Vec3 where
  x : ℚ
  y : ℚ
  z : ℚ
deriving DecidableEq, Repr

/-- Sphere positioning data, mirroring the `SpherePosition` interface of the
source: identity, model-local position, visibility, color and name. -/
structure SpherePosition where
  id : Nat
  x : ℚ
  y : ℚ
  z : ℚ
  visible : Bool
  color : String
  name : String
deriving DecidableEq, Repr

/-- The 16-anchor registry seeded at mount: the flattened appliance list of
`menuData` paired with the authored `specificCoordinates` and `colors`
arrays, ids 1..16 in creation order. -/
def initialSpheres : List SpherePosition :=
  [ ⟨1,  -1.2, 2.4,  1.8, true, "#ff6b6b", "Samsung TV"⟩,
    ⟨2,  -1.1, 2.6,  0.9, true, "#4ecdc4", "LED lights"⟩,
    ⟨3,  -1.3, 2.2,  1.7, true, "#45b7d1", "Videogame"⟩,
    ⟨4,  -0.4, 0.1,  1.5, true, "#96ceb4", "Carpet"⟩,
    ⟨5,  -0.2, 0.4, -1.7, true, "#feca57", "Oven"⟩,
    ⟨6,  -0.6, 0.6, -1.7, true, "#ff9ff3", "Microwave"⟩,
    ⟨7,   0.5, 0.6, -1.7, true, "#54a0ff", "Mixer"⟩,
    ⟨8,  -0.1, 0.7, -1.7, true, "#5f27cd", "Cooktop"⟩,
    ⟨9,  0.42, 2.1,  1.7, true, "#00d2d3", "Bed"⟩,
    ⟨10, -0.6, 2.1,  1.7, true, "#ff9f43", "Rug"⟩,
    ⟨11,  1.3, 2.2,  1.7, true, "#ee5a24", "Desk"⟩,
    ⟨12,  1.2, 2.2,  1.2, true, "#0abde3", "Chair"⟩,
    ⟨13,  1.5, 0.8, -1.8, true, "#10ac84", "Shower"⟩,
    ⟨14,  1.7, 0.3, -0.7, true, "#f368e0", "Toilet"⟩,
    ⟨15,  1.4, 1.3,  0.1, true, "#3742fa", "LED lights"⟩,
    ⟨16,  0.9, 0.8, -0.6, true, "#2f3542", "Towell Hanger"⟩ ]

/-- JavaScript's `Math.abs(a) % 360`: the remainder of `|a|` by 360, always
in `[0, 360)`. -/
def jsMod360 (a : ℚ) : ℚ := |a| - 360 * ⌊|a| / 360⌋

/-- Title opacity as a function of the display degrees (STAGE 1 of the wheel
handler): `max (1 - d/30) 0` below 30 degrees, 0 beyond. -/
def titleOpacityOf (d : ℚ) : ℚ :=
  if d < 30 then max (1 - d / 30) 0 else 0

/-- Model scale as a function of the display degrees (STAGE 2 of the wheel
handler): 1.5 below 30 degrees, the linear ramp `1.5 + (d-30)/30 * 1.3` up
to 60 degrees, and 2.8 beyond. -/
def modelScaleOf (d : ℚ) : ℚ :=
  if d < 30 then 1.5
  else if d < 60 then 1.5 + ((d - 30) / 30) * 1.3
  else 2.8

/-- The three ordered stages of the experience. -/
inductive Stage where
  | titleVisible
  | modelGrowing
  | navActive
deriving DecidableEq, Repr

/-- Stage classification from display degrees, as in `getCurrentStage`:
below 30 the title is visible, below 60 the model grows, beyond that the
navigation is active. -/
def stageOf (d : ℚ) : Stage :=
  if d < 30 then .titleVisible
  else if d < 60 then .modelGrowing
  else .navActive

/-- State touched by the delta-mode wheel handler of the sphere-positioning
variant: the accumulated signed degrees, the derived display value, the two
continuous outputs, and the sidebar/notification flags.  `fireCount` is a
ghost counter recording how many times the one-shot notification has been
triggered; it shadows no source variable and is used only to state the
latch property. -/
structure WheelState where
  accumulatedDegrees : ℚ
  rotationDegrees : ℚ
  titleOpacity : ℚ
  modelScale : ℚ
  sidebarOpen : Bool
  showSphereControls : Bool
  notificationShown : Bool
  showNotification : Bool
  fireCount : Nat
deriving DecidableEq, Repr

/-- The initial state at mount. -/
def initialWheelState : WheelState :=
  ⟨0, 0, 1, 1.5, false, false, false, false, 0⟩

/-- The delta-mode `handleWheel` callback: 1.2 degrees per event, signed by
`deltaY > 0`, accumulated without bound; display degrees, title opacity and
model scale recomputed; on reaching 60 degrees with the sidebar closed the
sidebar opens, and the first such opening fires the one-shot
notification. -/
def handleWheel (st : WheelState) (deltaY : ℚ) : WheelState :=
  let degreesPerScroll : ℚ := 1.2
  let scrollDirection : ℚ := if deltaY > 0 then 1 else -1
  let accumulatedDegrees := st.accumulatedDegrees + scrollDirection * degreesPerScroll
  let displayDegrees := jsMod360 accumulatedDegrees
  let st := { st with
    accumulatedDegrees := accumulatedDegrees
    rotationDegrees := displayDegrees
    titleOpacity := titleOpacityOf displayDegrees
    modelScale := modelScaleOf displayDegrees }
  if 60 ≤ displayDegrees ∧ st.sidebarOpen = false then
    let st := { st with sidebarOpen := true, showSphereControls := true }
    if st.notificationShown = false then
      { st with
        showNotification := true
        notificationShown := true
        fireCount := st.fireCount + 1 }
    else st
  else st

/-- Discrete input events of the wheel/sidebar subsystem: a wheel event
carrying its `deltaY`, an explicit sidebar close (close button, escape key
or backdrop click), and the deferred auto-dismissal of the notification
toast. -/
inductive WheelEvent where
  | wheel (deltaY : ℚ)
  | closeSidebar
  | dismissNotification
deriving DecidableEq, Repr

/-- One step of the wheel/sidebar subsystem.  `closeSidebar` mirrors
`closeSidebar` and the escape-key handler (sidebar and sphere controls
close); `dismissNotification` mirrors the 3000 ms `setTimeout` body that
hides the toast. -/
def wheelStep (st : WheelState) : WheelEvent → WheelState
  | .wheel deltaY => handleWheel st deltaY
  | .closeSidebar => { st with sidebarOpen := false, showSphereControls := false }
  | .dismissNotification => { st with showNotification := false }

/-- Run a list of events from a state. -/
def runWheel (st : WheelState) (evs : List WheelEvent) : WheelState :=
  evs.foldl wheelStep st

/-- The notification latch invariant: the latch flag records whether the
one-shot notification has ever fired, and it has fired at most once. -/
def NotificationInv (st : WheelState) : Prop :=
  (st.notificationShown = true ↔ 1 ≤ st.fireCount) ∧ st.fireCount ≤ 1

/-- The concrete state used to witness the notification claims: 59 degrees
accumulated, sidebar still closed, latch unfired. -/
def w59 : WheelState := { initialWheelState with accumulatedDegrees := 59, rotationDegrees := 59 }

/-- The transcendental functions used by the camera computations, abstracted
as parameters so the definitions stay executable: `Math.cos`, `Math.sin`,
`Math.atan2`, and the constant `Math.PI`. -/
structure RealFns where
  cos : ℚ → ℚ
  sin : ℚ → ℚ
  atan2 : ℚ → ℚ → ℚ
  pi : ℚ

/-- The camera director's mode. -/
inductive CameraMode where
  | overview
  | focused
  | transitioning
deriving DecidableEq, Repr

/-- The transition sub-phase carried while TRANSITIONING. -/
inductive TransitionPhase where
  | zoom_out
  | zoom_in
  | none
deriving DecidableEq, Repr

/-- The desired camera pose plus the `animating` flag. -/
structure CameraTarget where
  position : Vec3
  lookAt : Vec3
  animating : Bool
deriving DecidableEq, Repr

/-- Lookup of a sphere by id, as `spheres.find((s) => s.id === sphereId)`. -/
def findSphere (spheres : List SpherePosition) (sphereId : Nat) : Option SpherePosition :=
  spheres.find? (fun s => s.id == sphereId)

/-- JavaScript truthiness of a `number | null` value: non-null and
non-zero. -/
def optTruthy : Option Nat → Bool
  | some n => n != 0
  | Option.none => false

/-- The anchor world-position block appearing verbatim at every camera
computation site of the source:
`worldX = x*cos(θ) - z*sin(θ); worldZ = x*sin(θ) + z*cos(θ); worldY = y`,
where `θ` is whatever angle that site passes in. -/
def sphereWorld (F : RealFns) (θ : ℚ) (s : SpherePosition) : Vec3 :=
  ⟨s.x * F.cos θ - s.z * F.sin θ, s.y, s.x * F.sin θ + s.z * F.cos θ⟩

/-- Modelled from the spec (§4.4): the derived anchor world position, with
θ taken to be the *current displayed* (smoothed) rotation at query time as
the spec demands; this is the comparator for the claim that the code uses
the displayed rotation rather than the raw target rotation. -/
def specDisplayedWorldPosition (F : RealFns) (displayedRotation : ℚ) (s : SpherePosition) : Vec3 :=
  ⟨s.x * F.cos displayedRotation - s.z * F.sin displayedRotation, s.y,
   s.x * F.sin displayedRotation + s.z * F.cos displayedRotation⟩

/-- The focused camera target of the LOD variant, shared by
`performZoomToSphere`, the zoom-in body of `handleAnimationComplete`, and
(without the flag) the locked-tracking branch: distance 0.8, height 0.3,
approach angle `atan2(worldZ, worldX) + π/4`. -/
def focusCameraTarget (F : RealFns) (θ : ℚ) (s : SpherePosition) : CameraTarget :=
  let w := sphereWorld F θ s
  let distance : ℚ := 0.8
  let height : ℚ := 0.3
  let angle := F.atan2 w.z w.x + F.pi / 4
  ⟨⟨w.x + distance * F.cos angle, w.y + height, w.z + distance * F.sin angle⟩, w, true⟩

/-- The overview camera target: `position = (0, 3, 8 - (scale-1.5)*1.5)`,
`lookAt = (0,0,0)`. -/
def overviewTarget (modelScale : ℚ) : CameraTarget :=
  ⟨⟨0, 3, 8 - (modelScale - 1.5) * 1.5⟩, ⟨0, 0, 0⟩, true⟩

/-- The camera-relevant state of the LOD variant.  `displayedRotation` is
the model smoother's current rendered angle (`currentRotation.current` of
`LODTinyHouseModel`); `settlePending` is a ghost field recording a
scheduled 400 ms settle timeout together with the pending-target id the
timeout closure captured. -/
structure CamState where
  spheres : List SpherePosition
  targetRotation : ℚ
  displayedRotation : ℚ
  modelScale : ℚ
  cameraTarget : CameraTarget
  focusedSphere : Option Nat
  cameraMode : CameraMode
  pendingTarget : Option Nat
  transitionPhase : TransitionPhase
  settlePending : Option Nat
  notificationText : String
  showNotification : Bool
deriving DecidableEq, Repr

/-- Source `performZoomToSphere`: direct zoom onto a sphere — compute the focus
pose from the sphere's world position at the raw `targetRotation`, start
the animation, set the focus and mode, and show the toast.  Unknown id:
return unchanged. -/
def performZoomToSphere (F : RealFns) (st : CamState) (sphereId : Nat) : CamState :=
  match findSphere st.spheres sphereId with
  | Option.none => st
  | some s =>
      { st with
        cameraTarget := focusCameraTarget F st.targetRotation s
        focusedSphere := some sphereId
        cameraMode := .focused
        notificationText := "Focused on " ++ s.name ++ " - LOD Optimized & Locked"
        showNotification := true }

/-- Source `zoomToSphere` of the LOD variant: unknown id is a no-op; when already
focused on a different sphere, enter the two-phase transition (mode
TRANSITIONING, phase ZOOM_OUT, pending target set, focus cleared, camera
animating toward the overview pose); otherwise zoom directly. -/
def zoomToSphere (F : RealFns) (st : CamState) (sphereId : Nat) : CamState :=
  match findSphere st.spheres sphereId with
  | Option.none => st
  | some s =>
      match st.focusedSphere with
      | some f =>
          if f ≠ 0 ∧ f ≠ sphereId then
            { st with
              cameraMode := .transitioning
              pendingTarget := some sphereId
              transitionPhase := .zoom_out
              focusedSphere := Option.none
              cameraTarget := overviewTarget st.modelScale
              notificationText := "Transitioning from "
                ++ (match findSphere st.spheres f with
                    | some o => o.name
                    | Option.none => "undefined") ++ " to " ++ s.name ++ "..."
              showNotification := true }
          else performZoomToSphere F st sphereId
      | Option.none => performZoomToSphere F st sphereId

/-- Source `handleAnimationComplete`: clear the `animating` flag; if a zoom-out of
a transition just finished with a truthy pending target, schedule the
400 ms settle timeout (recorded in the ghost field together with the
captured pending id). -/
def handleAnimationComplete (st : CamState) : CamState :=
  let st1 := { st with cameraTarget := { st.cameraTarget with animating := false } }
  if st1.cameraMode = .transitioning ∧ st1.transitionPhase = .zoom_out
      ∧ optTruthy st1.pendingTarget = true then
    { st1 with settlePending := st1.pendingTarget }
  else st1

/-- The body of the 400 ms settle timeout scheduled by
`handleAnimationComplete`: move the phase to ZOOM_IN, start the zoom-in
animation onto the captured pending target (computing its world position at
the raw `targetRotation`), set the focus and mode to FOCUSED immediately,
then clear the pending target and the phase. -/
def settleFire (F : RealFns) (st : CamState) : CamState :=
  match st.settlePending with
  | Option.none => st
  | some pendingId =>
      let st1 := { st with settlePending := Option.none, transitionPhase := .zoom_in }
      let st2 :=
        match findSphere st1.spheres pendingId with
        | some s =>
            { st1 with
              cameraTarget := focusCameraTarget F st1.targetRotation s
              focusedSphere := some pendingId
              cameraMode := .focused
              notificationText := "Focused on " ++ s.name ++ " - LOD Optimized & Locked"
              showNotification := true }
        | Option.none => st1
      { st2 with pendingTarget := Option.none, transitionPhase := .none }

/-- The pose applied every frame by the locked-tracking branch of
`LODStaticCameraAnimation`: recomputed from the focused sphere's live world
position at the raw `targetRotation` prop, with the same 0.8/0.3/π-per-4
offsets as the focus pose. -/
def lockedCameraPose (F : RealFns) (targetRotation : ℚ) (s : SpherePosition) : CameraTarget :=
  focusCameraTarget F targetRotation s

/-- The camera-relevant state of the basic (part_003) variant, which has no
mode machinery. -/
structure BasicCamState where
  spheres : List SpherePosition
  targetRotation : ℚ
  displayedRotation : ℚ
  modelScale : ℚ
  cameraTarget : CameraTarget
  notificationText : String
  showNotification : Bool
deriving DecidableEq, Repr

/-- Source `zoomToSphere` of the basic variant: unknown id is a no-op; otherwise
compute the world position at the raw `targetRotation` with distance 1.5,
height 0.8 and angle offset π/3, and start the animation. -/
def zoomToSphereBasic (F : RealFns) (st : BasicCamState) (sphereId : Nat) : BasicCamState :=
  match findSphere st.spheres sphereId with
  | Option.none => st
  | some s =>
      let distance : ℚ := 1.5
      let height : ℚ := 0.8
      let w := sphereWorld F st.targetRotation s
      let angle := F.atan2 w.z w.x + F.pi / 3
      { st with
        cameraTarget :=
          ⟨⟨w.x + distance * F.cos angle, w.y + height, w.z + distance * F.sin angle⟩, w, true⟩
        notificationText := "Zooming to " ++ s.name
        showNotification := true }

/-- Events of the camera director: a user focus request, the completion of
the running camera animation, and the firing of the scheduled settle
timeout. -/
inductive CamEvent where
  | focus (sphereId : Nat)
  | animComplete
  | settle
deriving DecidableEq, Repr

/-- Whether an event is a user focus request. -/
def CamEvent.isUserFocus : CamEvent → Bool
  | .focus _ => true
  | _ => false

/-- One step of the camera director. -/
def camStep (F : RealFns) (st : CamState) : CamEvent → CamState
  | .focus sphereId => zoomToSphere F st sphereId
  | .animComplete => handleAnimationComplete st
  | .settle => settleFire F st

/-- Run a list of camera events from a state. -/
def runCam (F : RealFns) (st : CamState) (evs : List CamEvent) : CamState :=
  evs.foldl (camStep F) st

/-- The invariant holding after a transition toward anchor `a2` has been
initiated and no further focus request arrives: the pending target, the
scheduled settle target and the focus can only be absent or `a2`, and the
mode can be FOCUSED only with the focus on `a2`. -/
def TransInv (a2 : Nat) (st : CamState) : Prop :=
  (st.pendingTarget = Option.none ∨ st.pendingTarget = some a2)
  ∧ (st.focusedSphere = Option.none ∨ st.focusedSphere = some a2)
  ∧ (st.settlePending = Option.none ∨ st.settlePending = some a2)
  ∧ (st.cameraMode = CameraMode.focused → st.focusedSphere = some a2)

/-- A placeholder instantiation of the transcendental functions, used for
concrete runs whose control flow does not depend on their values. -/
def F0 : RealFns := ⟨fun _ => 1, fun _ => 0, fun _ _ => 0, 3.14⟩

/-- An instantiation of the transcendental functions agreeing with the true
cosine and sine on the two angles used by the counterexample: the argument
`0` (cos 0 = 1, sin 0 = 0) and any non-zero argument, which stands for a
quarter turn (cos = 0, sin = 1). -/
def Ftrig : RealFns :=
  ⟨fun q => if q = 0 then 1 else 0, fun q => if q = 0 then 0 else 1, fun _ _ => 0, 3.14⟩

/-- A quiescent FOCUSED(5) camera state over the seeded registry. -/
def cam0 : CamState :=
  { spheres := initialSpheres
    targetRotation := 0
    displayedRotation := 0
    modelScale := 1.5
    cameraTarget := ⟨⟨0, 3, 8⟩, ⟨0, 0, 0⟩, false⟩
    focusedSphere := some 5
    cameraMode := CameraMode.focused
    pendingTarget := Option.none
    transitionPhase := TransitionPhase.none
    settlePending := Option.none
    notificationText := ""
    showNotification := false }

/-- An overview camera state whose smoothed display rotation (a quarter
turn, encoded as the non-zero argument of `Ftrig`) lags the raw target
rotation 0. -/
def cam1 : CamState :=
  { cam0 with focusedSphere := Option.none, cameraMode := CameraMode.overview
              targetRotation := 0, displayedRotation := 1 }

/-- An overview camera state with a settle timeout scheduled for anchor 4. -/
def cam4 : CamState :=
  { cam0 with focusedSphere := Option.none, cameraMode := CameraMode.overview
              settlePending := some 4 }

/-- A basic-variant camera state over the seeded registry. -/
def bas0 : BasicCamState :=
  ⟨initialSpheres, 0, 0, 1.5, ⟨⟨0, 3, 8⟩, ⟨0, 0, 0⟩, false⟩, "", false⟩

/-- The squared Euclidean distance between two points.  The source computes
`Math.sqrt` of this value and compares it with an epsilon ε; since the
square root is monotone and both sides are non-negative,
`sqrt d < ε ↔ d < ε²`, so the completion tests below compare the squared
distance against the squared epsilon to stay within exact rational
arithmetic. -/
def distSq (a b : Vec3) : ℚ :=
  (a.x - b.x) ^ 2 + (a.y - b.y) ^ 2 + (a.z - b.z) ^ 2

/-- The completion test of `LODStaticCameraAnimation` (LOD variant):
complete exactly when the position distance AND the look-at distance are
both below 0.05. -/
def lodAnimationComplete (currentPosition currentLookAt : Vec3) (target : CameraTarget) : Bool :=
  decide (distSq target.position currentPosition < 0.05 ^ 2
    ∧ distSq target.lookAt currentLookAt < 0.05 ^ 2)

/-- The completion test of `AnimatedCamera` (basic variant): complete as
soon as the position distance is below 0.1; the look-at distance is not
examined at all. -/
def basicAnimationComplete (currentPosition currentLookAt : Vec3) (target : CameraTarget) : Bool :=
  decide (distSq target.position currentPosition < 0.1 ^ 2)

/-- LOD quality levels. -/
inductive LODLevel where
  | low
  | medium
  | high
deriving DecidableEq, Repr

/-- Sphere-geometry tessellation parameters. -/
structure GeometryDetail where
  widthSegments : Nat
  heightSegments : Nat
deriving DecidableEq, Repr

/-- The decision record returned by the LOD selector. -/
structure LODResult where
  detail : LODLevel
  visible : Bool
  showWireframe : Bool
  showFloating : Bool
  geometryDetail : GeometryDetail
deriving DecidableEq, Repr

/-- Source `useDistanceLOD`: the focused sphere (a truthy `sphereId` equal to
`focusedSphere`) is forced to high detail with 32-segment geometry
regardless of distance; otherwise the camera-to-sphere distance buckets
into four bands at 2, 5 and 10 world units, with the outermost band
culled. -/
def useDistanceLOD (distance : ℚ) (focusedSphere : Option Nat)
    (sphereId : Option Nat) : LODResult :=
  let isFocusedSphere : Bool :=
    match sphereId with
    | some n => n != 0 && focusedSphere == some n
    | Option.none => false
  if isFocusedSphere then
    ⟨.high, true, true, true, ⟨32, 32⟩⟩
  else if distance < 2 then
    ⟨.high, true, true, true, ⟨16, 16⟩⟩
  else if distance < 5 then
    ⟨.medium, true, true, true, ⟨12, 12⟩⟩
  else if distance < 10 then
    ⟨.low, true, false, false, ⟨8, 8⟩⟩
  else
    ⟨.low, false, false, false, ⟨6, 6⟩⟩

/-- Source `resetAllSpheres` of the basic (part_003) variant: each sphere keeps its
identity fields and draws a fresh `x = (r-0.5)*12`, `y = r*6 - 1`,
`z = (r-0.5)*12` and becomes visible.  `rand k` is the k-th `Math.random()`
draw of the call; each sphere consumes three consecutive draws in x, y, z
order. -/
def resetAllSpheres (rand : Nat → ℚ) (k : Nat) :
    List SpherePosition → List SpherePosition
  | [] => []
  | s :: rest =>
      { s with
        x := (rand k - 0.5) * 12
        y := rand (k + 1) * 6 - 1
        z := (rand (k + 2) - 0.5) * 12
        visible := true } :: resetAllSpheres rand (k + 3) rest

/-- Source `resetAllSpheres` of the LOD (part_002) variant: each sphere keeps its
identity and visibility fields and draws a fresh `x = (r-0.5)*16`,
`y = r*8 - 2`, `z = (r-0.5)*16`. -/
def resetAllSpheresLOD (rand : Nat → ℚ) (k : Nat) :
    List SpherePosition → List SpherePosition
  | [] => []
  | s :: rest =>
      { s with
        x := (rand k - 0.5) * 16
        y := rand (k + 1) * 8 - 2
        z := (rand (k + 2) - 0.5) * 16 } :: resetAllSpheresLOD rand (k + 3) rest

/-- Below one full turn the display value is the accumulated value itself. -/
lemma jsMod360_of_nonneg_of_lt {a : ℚ} (h0 : 0 ≤ a) (h1 : a < 360) :
    jsMod360 a = a := by
  have habs : |a| = a := abs_of_nonneg h0
  have hfl : ⌊a / 360⌋ = 0 := by
    rw [Int.floor_eq_zero_iff, Set.mem_Ico]
    constructor
    · positivity
    · rw [div_lt_one (by norm_num)]
      exact h1
  unfold jsMod360
  rw [habs, hfl]
  ring

/-- A single forward wheel event below the 60-degree threshold only updates
the continuous outputs. -/
lemma handleWheel_forward (st : WheelState) (d : ℚ) (hd : 0 < d)
    (hnn : 0 ≤ st.accumulatedDegrees + 1.2)
    (hlt : st.accumulatedDegrees + 1.2 < 60) :
    handleWheel st d =
      { st with
        accumulatedDegrees := st.accumulatedDegrees + 1.2
        rotationDegrees := st.accumulatedDegrees + 1.2
        titleOpacity := titleOpacityOf (st.accumulatedDegrees + 1.2)
        modelScale := modelScaleOf (st.accumulatedDegrees + 1.2) } := by
  unfold handleWheel
  rw [if_pos hd]
  dsimp only
  rw [one_mul, jsMod360_of_nonneg_of_lt hnn (by linarith),
    if_neg (fun h => absurd h.1 (by push_neg; linarith))]

/-- A run of `n` forward wheel events (positive `deltaY`) that stays below
the 60-degree threshold accumulates `1.2 * n` degrees, keeps the sidebar
closed and the notification unfired, and holds the derived outputs. -/
lemma runWheel_forward (d : ℚ) (hd : 0 < d) (n : ℕ) (hn : (n : ℚ) * 1.2 < 60) :
    runWheel initialWheelState (List.replicate n (WheelEvent.wheel d)) =
      { accumulatedDegrees := (n : ℚ) * 1.2
        rotationDegrees := (n : ℚ) * 1.2
        titleOpacity := titleOpacityOf ((n : ℚ) * 1.2)
        modelScale := modelScaleOf ((n : ℚ) * 1.2)
        sidebarOpen := false
        showSphereControls := false
        notificationShown := false
        showNotification := false
        fireCount := 0 } := by
  induction n with
  | zero =>
    simp only [List.replicate, runWheel, List.foldl_nil, Nat.cast_zero, zero_mul]
    rw [initialWheelState, titleOpacityOf, modelScaleOf]
    norm_num
  | succ k ih =>
    have hk : (k : ℚ) * 1.2 < 60 := by
      have : (k : ℚ) ≤ (k : ℚ) + 1 := by linarith
      push_cast at hn
      nlinarith
    have hnn : (0 : ℚ) ≤ (k : ℚ) * 1.2 + 1.2 := by positivity
    have hlt : (k : ℚ) * 1.2 + 1.2 < 360 := by push_cast at hn; nlinarith
    have ihk := ih hk
    simp only [runWheel] at ihk ⊢
    rw [List.replicate_succ', List.foldl_append, ihk]
    simp only [List.foldl_cons, List.foldl_nil, wheelStep]
    rw [handleWheel_forward _ _ hd (by dsimp; positivity)
      (by dsimp; push_cast at hn; nlinarith)]
    have hcast : ((k : ℚ) * 1.2 + 1.2) = ((k + 1 : ℕ) : ℚ) * 1.2 := by
      push_cast
      ring
    dsimp only
    rw [hcast]

/-- The accumulated degrees after one wheel event: plus or minus 1.2
depending only on the sign test `deltaY > 0`. -/
lemma handleWheel_accumulated (st : WheelState) (d : ℚ) :
    (handleWheel st d).accumulatedDegrees =
      st.accumulatedDegrees + (if d > 0 then (1 : ℚ) else -1) * 1.2 := by
  unfold handleWheel
  dsimp only
  split_ifs <;> rfl

/-- The display degrees after one wheel event. -/
lemma handleWheel_rotationDegrees (st : WheelState) (d : ℚ) :
    (handleWheel st d).rotationDegrees =
      jsMod360 (st.accumulatedDegrees + (if d > 0 then (1 : ℚ) else -1) * 1.2) := by
  unfold handleWheel
  dsimp only
  split_ifs <;> rfl

lemma notificationInv_handleWheel (st : WheelState) (d : ℚ)
    (h : NotificationInv st) : NotificationInv (handleWheel st d) := by
  obtain ⟨h1, h2⟩ := h
  unfold handleWheel NotificationInv
  dsimp only
  split_ifs <;>
    first
      | exact ⟨h1, h2⟩
      | (rename_i hshown
         dsimp only
         have h0 : st.fireCount = 0 := by
           rcases Nat.eq_zero_or_pos st.fireCount with h | h
           · exact h
           · exact absurd (h1.mpr h) (by rw [hshown]; simp)
         exact ⟨by simp, by omega⟩)

lemma notificationInv_step (st : WheelState) (e : WheelEvent)
    (h : NotificationInv st) : NotificationInv (wheelStep st e) := by
  cases e with
  | wheel d => exact notificationInv_handleWheel st d h
  | closeSidebar => exact h
  | dismissNotification => exact h

lemma notificationInv_run (evs : List WheelEvent) :
    ∀ st : WheelState, NotificationInv st → NotificationInv (runWheel st evs) := by
  induction evs with
  | nil => exact fun st h => h
  | cons e rest ih =>
    intro st h
    exact ih (wheelStep st e) (notificationInv_step st e h)

/-- C3 (counterexample): after 42 delta-mode wheel events of 1.2 degrees
each (50.4 accumulated degrees) the model scale is exactly 298/125 = 2.384,
which differs from the claimed "approximately 2.17" by 0.214 — more than
any reasonable tolerance for the word approximately. -/
theorem claim_C3_counterexample :
    (runWheel initialWheelState
        (List.replicate 42 (WheelEvent.wheel 100))).modelScale = 298 / 125
    ∧ (298 / 125 : ℚ) - 2.17 = 0.214
    ∧ ¬ |(298 / 125 : ℚ) - 2.17| ≤ 0.1 := by
  refine ⟨?_, by norm_num, by rw [abs_le]; push_neg; intro h; norm_num⟩
  rw [runWheel_forward 100 (by norm_num) 42 (by norm_num)]
  rw [modelScaleOf]
  norm_num

/-- C3 (amended): wheel events totaling +50.4 accumulated degrees
(delta-mode, 1.2 degrees per event, 42 events) leave the state in Stage
MODEL_GROWING with model scale 298/125 = 2.384 (not 2.17), the sidebar
closed, and title opacity 0. -/
theorem claim_C3_amended :
    (runWheel initialWheelState
        (List.replicate 42 (WheelEvent.wheel 100))).rotationDegrees = 50.4
    ∧ stageOf (runWheel initialWheelState
        (List.replicate 42 (WheelEvent.wheel 100))).rotationDegrees = Stage.modelGrowing
    ∧ (runWheel initialWheelState
        (List.replicate 42 (WheelEvent.wheel 100))).modelScale = 2.384
    ∧ (runWheel initialWheelState
        (List.replicate 42 (WheelEvent.wheel 100))).sidebarOpen = false
    ∧ (runWheel initialWheelState
        (List.replicate 42 (WheelEvent.wheel 100))).titleOpacity = 0 := by
  rw [runWheel_forward 100 (by norm_num) 42 (by norm_num)]
  refine ⟨by norm_num, ?_, ?_, rfl, ?_⟩
  · rw [stageOf]
    norm_num
  · rw [modelScaleOf]
    norm_num
  · rw [titleOpacityOf]
    norm_num

/-- C5: the model scale is the constant 1.5 below 30 display degrees, the
linear ramp `1.5 + (d-30)/30 * 1.3` on [30, 60), and the constant 2.8 at
and beyond 60; in particular it is 1.5 at 30 degrees, 2.15 at 45 degrees,
and 2.8 at 60 degrees. -/
theorem claim_C5_scale :
    (∀ d : ℚ,
      (d < 30 → modelScaleOf d = 1.5)
      ∧ (30 ≤ d → d < 60 → modelScaleOf d = 1.5 + ((d - 30) / 30) * 1.3)
      ∧ (60 ≤ d → modelScaleOf d = 2.8))
    ∧ modelScaleOf 30 = 1.5 ∧ modelScaleOf 45 = 2.15 ∧ modelScaleOf 60 = 2.8 := by
  refine ⟨fun d => ⟨fun h => ?_, fun h1 h2 => ?_, fun h => ?_⟩,
    by rw [modelScaleOf]; norm_num, by rw [modelScaleOf]; norm_num,
    by rw [modelScaleOf]; norm_num⟩
  · rw [modelScaleOf, if_pos h]
  · rw [modelScaleOf, if_neg (by linarith), if_pos h2]
  · rw [modelScaleOf, if_neg (by linarith), if_neg (by linarith)]

/-- Witness for C5 at the midpoint 45 degrees. -/
theorem claim_C5_scale_witness :
    ((30 : ℚ) ≤ 45 ∧ (45 : ℚ) < 60)
    ∧ modelScaleOf 45 = 1.5 + (((45 : ℚ) - 30) / 30) * 1.3 :=
  ⟨⟨by norm_num, by norm_num⟩,
    (claim_C5_scale.1 45).2.1 (by norm_num) (by norm_num)⟩

/-- C6: the one-shot notification fires exactly once per session: along any
event sequence from the initial state it fires at most once; a wheel event
from an unlatched, sidebar-closed state whose resulting display value
reaches 60 degrees fires it and sets the latch; and once the latch is set
no wheel event ever fires it again. -/
theorem claim_C6_latch :
    (∀ evs : List WheelEvent, (runWheel initialWheelState evs).fireCount ≤ 1)
    ∧ (∀ (st : WheelState) (d : ℚ),
        st.sidebarOpen = false → st.notificationShown = false →
        60 ≤ (handleWheel st d).rotationDegrees →
        (handleWheel st d).fireCount = st.fireCount + 1
        ∧ (handleWheel st d).showNotification = true
        ∧ (handleWheel st d).notificationShown = true)
    ∧ (∀ (st : WheelState) (d : ℚ),
        st.notificationShown = true →
        (handleWheel st d).fireCount = st.fireCount
        ∧ (handleWheel st d).notificationShown = true) := by
  refine ⟨?_, ?_, ?_⟩
  · intro evs
    exact (notificationInv_run evs initialWheelState ⟨by simp [initialWheelState], by simp [initialWheelState]⟩).2
  · intro st d hsb hns h60
    rw [handleWheel_rotationDegrees] at h60
    unfold handleWheel
    dsimp only
    rw [if_pos ⟨h60, hsb⟩, if_pos hns]
    exact ⟨rfl, rfl, rfl⟩
  · intro st d hns
    unfold handleWheel
    dsimp only
    split_ifs <;>
      first
        | exact ⟨rfl, hns⟩
        | (rename_i hshown; exact absurd hns (by rw [hshown]; simp))

/-- Witness for C6: from 59 accumulated degrees with the latch unfired, a
forward wheel event reaches 60.2 display degrees and fires the
notification exactly once. -/
theorem claim_C6_latch_witness :
    (w59.sidebarOpen = false ∧ w59.notificationShown = false
      ∧ 60 ≤ (handleWheel w59 1).rotationDegrees)
    ∧ (handleWheel w59 1).fireCount = w59.fireCount + 1
    ∧ (handleWheel w59 1).showNotification = true
    ∧ (handleWheel w59 1).notificationShown = true := by
  have h60 : 60 ≤ (handleWheel w59 1).rotationDegrees := by
    rw [handleWheel_rotationDegrees]
    have hv : w59.accumulatedDegrees + (if (1 : ℚ) > 0 then (1 : ℚ) else -1) * 1.2 = 60.2 := by
      rw [if_pos (by norm_num)]
      rw [w59]
      norm_num
    rw [hv, jsMod360_of_nonneg_of_lt (by norm_num) (by norm_num)]
    norm_num
  exact ⟨⟨rfl, rfl, h60⟩, claim_C6_latch.2.1 w59 1 rfl rfl h60⟩

/-- C10: in the delta-mode wheel handler a `deltaY = 0` event is classified
as backward and decreases the accumulated degrees by 1.2; only events with
strictly positive `deltaY` increase them, every other event decreases
them. -/
theorem claim_C10_zero_delta :
    ∀ (st : WheelState) (deltaY : ℚ),
      (handleWheel st 0).accumulatedDegrees = st.accumulatedDegrees - 1.2
      ∧ (0 < deltaY →
          (handleWheel st deltaY).accumulatedDegrees = st.accumulatedDegrees + 1.2)
      ∧ (deltaY ≤ 0 →
          (handleWheel st deltaY).accumulatedDegrees = st.accumulatedDegrees - 1.2) := by
  intro st deltaY
  refine ⟨?_, fun h => ?_, fun h => ?_⟩
  · rw [handleWheel_accumulated, if_neg (by norm_num)]
    ring
  · rw [handleWheel_accumulated, if_pos h]
    ring
  · rw [handleWheel_accumulated, if_neg (by linarith)]
    ring

/-- Witness for C10 at `deltaY = 0` and a backward event. -/
theorem claim_C10_zero_delta_witness :
    ((-3 : ℚ) ≤ 0)
    ∧ (handleWheel initialWheelState 0).accumulatedDegrees
        = initialWheelState.accumulatedDegrees - 1.2
    ∧ (handleWheel initialWheelState (-3)).accumulatedDegrees
        = initialWheelState.accumulatedDegrees - 1.2 :=
  ⟨by norm_num, (claim_C10_zero_delta initialWheelState 0).1,
    (claim_C10_zero_delta initialWheelState (-3)).2.2 (by norm_num)⟩

lemma transInv_animComplete (a2 : Nat) (st : CamState)
    (h : TransInv a2 st) : TransInv a2 (handleAnimationComplete st) := by
  obtain ⟨h1, h2, h3, h4⟩ := h
  unfold handleAnimationComplete
  dsimp only
  split_ifs with hc
  · exact ⟨h1, h2, h1, h4⟩
  · exact ⟨h1, h2, h3, h4⟩

lemma transInv_settle (F : RealFns) (a2 : Nat) (st : CamState)
    (h : TransInv a2 st) : TransInv a2 (settleFire F st) := by
  obtain ⟨h1, h2, h3, h4⟩ := h
  unfold settleFire
  rcases h3 with h3 | h3 <;> rw [h3] <;> dsimp only
  · exact ⟨h1, h2, Or.inl h3, h4⟩
  · cases hf : findSphere st.spheres a2 with
    | none =>
      dsimp only
      exact ⟨Or.inl rfl, h2, Or.inl rfl, h4⟩
    | some s =>
      dsimp only
      exact ⟨Or.inl rfl, Or.inr rfl, Or.inl rfl, fun _ => rfl⟩

lemma optTruthy_some {n : Nat} (h : n ≠ 0) : optTruthy (some n) = true := by
  simp [optTruthy, h]

/-- Requesting focus on a sphere present in the registry while focused on a
different sphere enters the two-phase transition. -/
lemma zoomToSphere_transition (F : RealFns) (st : CamState) (a1 a2 : Nat) (s2 : SpherePosition)
    (ha1 : a1 ≠ 0) (hne : a1 ≠ a2)
    (hfoc : st.focusedSphere = some a1)
    (hfind : findSphere st.spheres a2 = some s2) :
    zoomToSphere F st a2 =
      { st with
        cameraMode := CameraMode.transitioning
        pendingTarget := some a2
        transitionPhase := TransitionPhase.zoom_out
        focusedSphere := Option.none
        cameraTarget := overviewTarget st.modelScale
        notificationText := "Transitioning from "
          ++ (match findSphere st.spheres a1 with
              | some o => o.name
              | Option.none => "undefined") ++ " to " ++ s2.name ++ "..."
        showNotification := true } := by
  unfold zoomToSphere
  rw [hfind, hfoc]
  dsimp only
  rw [if_pos ⟨ha1, hne⟩]

/-- Completion of the zoom-out animation of a pending transition schedules
the settle timeout with the captured pending id. -/
lemma handleAnimationComplete_zoomOut (st : CamState) (a2 : Nat) (ha2 : a2 ≠ 0)
    (hmode : st.cameraMode = CameraMode.transitioning)
    (hphase : st.transitionPhase = TransitionPhase.zoom_out)
    (hpend : st.pendingTarget = some a2) :
    handleAnimationComplete st =
      { st with
        cameraTarget := { st.cameraTarget with animating := false }
        settlePending := some a2 } := by
  unfold handleAnimationComplete
  dsimp only
  rw [if_pos ⟨hmode, hphase, by rw [hpend]; exact optTruthy_some ha2⟩, hpend]

/-- Completion of an animation outside a pending zoom-out only clears the
`animating` flag. -/
lemma handleAnimationComplete_notTransitioning (st : CamState)
    (h : st.cameraMode ≠ CameraMode.transitioning) :
    handleAnimationComplete st =
      { st with cameraTarget := { st.cameraTarget with animating := false } } := by
  unfold handleAnimationComplete
  dsimp only
  rw [if_neg (fun hc => h hc.1)]

/-- The settle timeout with a scheduled target found in the registry starts
the zoom-in animation and immediately moves the state to FOCUSED on it. -/
lemma settleFire_scheduled (F : RealFns) (st : CamState) (a2 : Nat) (s2 : SpherePosition)
    (hsp : st.settlePending = some a2)
    (hfind : findSphere st.spheres a2 = some s2) :
    settleFire F st =
      { st with
        settlePending := Option.none
        cameraTarget := focusCameraTarget F st.targetRotation s2
        focusedSphere := some a2
        cameraMode := CameraMode.focused
        pendingTarget := Option.none
        transitionPhase := TransitionPhase.none
        notificationText := "Focused on " ++ s2.name ++ " - LOD Optimized & Locked"
        showNotification := true } := by
  unfold settleFire
  rw [hsp]
  dsimp only
  rw [hfind]

lemma transInv_run (F : RealFns) (a2 : Nat) (evs : List CamEvent)
    (hevs : ∀ e ∈ evs, e.isUserFocus = false) :
    ∀ st : CamState, TransInv a2 st → TransInv a2 (runCam F st evs) := by
  induction evs with
  | nil => exact fun st h => h
  | cons e rest ih =>
    intro st h
    have he := hevs e (List.mem_cons_self e rest)
    have hrest : ∀ e ∈ rest, e.isUserFocus = false :=
      fun x hx => hevs x (List.mem_cons_of_mem e hx)
    have hstep : TransInv a2 (camStep F st e) := by
      cases e with
      | focus sphereId => exact absurd he (by rw [CamEvent.isUserFocus]; simp)
      | animComplete => exact transInv_animComplete a2 st h
      | settle => exact transInv_settle F a2 st h
    exact ih hrest (camStep F st e) hstep

/-- C2 (amended): from a quiescent FOCUSED(a1) state, focus(a2) with a2 in
the registry and a2 distinct from a1 enters TRANSITIONING with phase
ZOOM_OUT, pending target a2, and the focus cleared; along every subsequent
execution without further focus requests the mode is never FOCUSED(a1)
again; after the zoom-out animation completes the mode is still
TRANSITIONING; the state becomes FOCUSED(a2) already when the settle
timeout fires and the zoom-in animation starts (not when it completes);
and it stays FOCUSED(a2) through zoom-in completion. -/
theorem claim_C2_transition (F : RealFns) (st0 : CamState) (a1 a2 : Nat) (s2 : SpherePosition)
    (ha1 : a1 ≠ 0) (ha2 : a2 ≠ 0) (hne : a1 ≠ a2)
    (hmode : st0.cameraMode = CameraMode.focused)
    (hfoc : st0.focusedSphere = some a1)
    (hsp : st0.settlePending = Option.none)
    (hfind : findSphere st0.spheres a2 = some s2) :
    ((runCam F st0 [.focus a2]).cameraMode = CameraMode.transitioning
      ∧ (runCam F st0 [.focus a2]).transitionPhase = TransitionPhase.zoom_out
      ∧ (runCam F st0 [.focus a2]).pendingTarget = some a2
      ∧ (runCam F st0 [.focus a2]).focusedSphere = Option.none
      ∧ (runCam F st0 [.focus a2]).cameraTarget.animating = true)
    ∧ (∀ evs : List CamEvent, (∀ e ∈ evs, e.isUserFocus = false) →
        ¬((runCam F st0 (CamEvent.focus a2 :: evs)).cameraMode = CameraMode.focused
          ∧ (runCam F st0 (CamEvent.focus a2 :: evs)).focusedSphere = some a1))
    ∧ ((runCam F st0 [.focus a2, .animComplete]).cameraMode = CameraMode.transitioning
      ∧ (runCam F st0 [.focus a2, .animComplete]).focusedSphere = Option.none
      ∧ (runCam F st0 [.focus a2, .animComplete]).cameraTarget.animating = false)
    ∧ ((runCam F st0 [.focus a2, .animComplete, .settle]).cameraMode = CameraMode.focused
      ∧ (runCam F st0 [.focus a2, .animComplete, .settle]).focusedSphere = some a2
      ∧ (runCam F st0 [.focus a2, .animComplete, .settle]).cameraTarget.animating = true)
    ∧ ((runCam F st0 [.focus a2, .animComplete, .settle, .animComplete]).cameraMode
          = CameraMode.focused
      ∧ (runCam F st0 [.focus a2, .animComplete, .settle, .animComplete]).focusedSphere = some a2
      ∧ (runCam F st0 [.focus a2, .animComplete, .settle, .animComplete]).cameraTarget.animating
          = false) := by
  have h1 := zoomToSphere_transition F st0 a1 a2 s2 ha1 hne hfoc hfind
  have h2 := handleAnimationComplete_zoomOut (zoomToSphere F st0 a2) a2 ha2
    (by rw [h1]) (by rw [h1]) (by rw [h1])
  have h3 := settleFire_scheduled F (handleAnimationComplete (zoomToSphere F st0 a2)) a2 s2
    (by rw [h2, h1]) (by rw [h2, h1]; exact hfind)
  have h4 := handleAnimationComplete_notTransitioning
    (settleFire F (handleAnimationComplete (zoomToSphere F st0 a2)))
    (by rw [h3]; intro hcm; exact CameraMode.noConfusion hcm)
  refine ⟨?_, ?_, ?_, ?_, ?_⟩
  · simp only [runCam, List.foldl_cons, List.foldl_nil, camStep]
    rw [h1]
    exact ⟨rfl, rfl, rfl, rfl, rfl⟩
  · intro evs hevs hcontra
    have hInv1 : TransInv a2 (zoomToSphere F st0 a2) := by
      rw [h1]
      exact ⟨Or.inr rfl, Or.inl rfl, Or.inl hsp, fun h => CameraMode.noConfusion h⟩
    have hInvEnd : TransInv a2 (runCam F (zoomToSphere F st0 a2) evs) :=
      transInv_run F a2 evs hevs _ hInv1
    have hfoc2 : (runCam F st0 (CamEvent.focus a2 :: evs)).focusedSphere = some a2 :=
      hInvEnd.2.2.2 hcontra.1
    exact hne (Option.some.inj (hcontra.2 ▸ hfoc2.symm)).symm
  · simp only [runCam, List.foldl_cons, List.foldl_nil, camStep]
    rw [h2, h1]
    exact ⟨rfl, rfl, rfl⟩
  · simp only [runCam, List.foldl_cons, List.foldl_nil, camStep]
    rw [h3]
    exact ⟨rfl, rfl, rfl⟩
  · simp only [runCam, List.foldl_cons, List.foldl_nil, camStep]
    rw [h4, h3]
    exact ⟨rfl, rfl, rfl⟩

/-- Witness for C2: the transition theorem applied to the seeded registry,
switching focus from sphere 5 (Oven) to sphere 7 (Mixer). -/
theorem claim_C2_transition_witness :
    ((5 : Nat) ≠ 0 ∧ (7 : Nat) ≠ 0 ∧ (5 : Nat) ≠ 7
      ∧ cam0.cameraMode = CameraMode.focused ∧ cam0.focusedSphere = some 5
      ∧ cam0.settlePending = Option.none
      ∧ findSphere cam0.spheres 7 = some ⟨7, 0.5, 0.6, -1.7, true, "#54a0ff", "Mixer"⟩)
    ∧ ((runCam F0 cam0 [.focus 7]).cameraMode = CameraMode.transitioning
      ∧ (runCam F0 cam0 [.focus 7]).transitionPhase = TransitionPhase.zoom_out
      ∧ (runCam F0 cam0 [.focus 7]).pendingTarget = some 7
      ∧ (runCam F0 cam0 [.focus 7]).focusedSphere = Option.none
      ∧ (runCam F0 cam0 [.focus 7]).cameraTarget.animating = true)
    ∧ ((runCam F0 cam0 [.focus 7, .animComplete, .settle, .animComplete]).cameraMode
        = CameraMode.focused
      ∧ (runCam F0 cam0 [.focus 7, .animComplete, .settle, .animComplete]).focusedSphere
        = some 7) := by
  have h := claim_C2_transition F0 cam0 5 7 ⟨7, 0.5, 0.6, -1.7, true, "#54a0ff", "Mixer"⟩
    (by decide) (by decide) (by decide) rfl rfl rfl rfl
  exact ⟨⟨by decide, by decide, by decide, rfl, rfl, rfl, rfl⟩, h.1,
    h.2.2.2.2.1, h.2.2.2.2.2.1⟩

/-- C2 (counterexample): switching focus from sphere 5 to sphere 7 on the
seeded registry, the state is already FOCUSED(7) right after the zoom-out
completes and the settle timeout fires — while the zoom-in animation is
still running (`animating = true`, no second completion has occurred) —
refuting that FOCUSED(a2) is reached only after both phases complete. -/
theorem claim_C2_counterexample :
    (runCam F0 cam0 [.focus 7, .animComplete, .settle]).cameraMode = CameraMode.focused
    ∧ (runCam F0 cam0 [.focus 7, .animComplete, .settle]).focusedSphere = some 7
    ∧ (runCam F0 cam0 [.focus 7, .animComplete, .settle]).cameraTarget.animating = true :=
  ⟨rfl, rfl, rfl⟩

/-- C7: requesting focus on an anchor id not present in the registry is a
silent no-op in both variants: the whole state — camera target, focused
anchor, camera mode, notification — is returned unchanged. -/
theorem claim_C7_unknown_focus :
    ∀ (F : RealFns) (st : CamState) (bst : BasicCamState) (sphereId : Nat),
      findSphere st.spheres sphereId = Option.none →
      findSphere bst.spheres sphereId = Option.none →
      zoomToSphere F st sphereId = st
      ∧ performZoomToSphere F st sphereId = st
      ∧ zoomToSphereBasic F bst sphereId = bst := by
  intro F st bst sphereId h hb
  refine ⟨?_, ?_, ?_⟩
  · unfold zoomToSphere
    rw [h]
  · unfold performZoomToSphere
    rw [h]
  · unfold zoomToSphereBasic
    rw [hb]

/-- Witness for C7: id 99 is absent from the seeded registry and focusing
it changes nothing. -/
theorem claim_C7_unknown_focus_witness :
    (findSphere cam0.spheres 99 = Option.none ∧ findSphere bas0.spheres 99 = Option.none)
    ∧ zoomToSphere F0 cam0 99 = cam0
    ∧ performZoomToSphere F0 cam0 99 = cam0
    ∧ zoomToSphereBasic F0 bas0 99 = bas0 :=
  ⟨⟨rfl, rfl⟩, claim_C7_unknown_focus F0 cam0 bas0 99 rfl rfl⟩

/-- C1 (amended): at every site where an anchor world position is computed
— the focus-pose computation `performZoomToSphere`, the zoom-in started by
the settle timeout, the locked-camera per-frame tracking, and the basic
variant's `zoomToSphere` — the computed look-at point equals the spec's
rotation formula `(x cos θ - z sin θ, y, x sin θ + z cos θ)` evaluated at
the RAW target rotation (`targetRotation`), not at the displayed
(smoothed) rotation. -/
theorem claim_C1_world_position (F : RealFns) (st : CamState) (bst : BasicCamState)
    (sphereId : Nat) (s t : SpherePosition)
    (hfind : findSphere st.spheres sphereId = some s)
    (hbfind : findSphere bst.spheres sphereId = some t) :
    (performZoomToSphere F st sphereId).cameraTarget.lookAt
        = specDisplayedWorldPosition F st.targetRotation s
    ∧ (st.settlePending = some sphereId →
        (settleFire F st).cameraTarget.lookAt
          = specDisplayedWorldPosition F st.targetRotation s)
    ∧ (lockedCameraPose F st.targetRotation s).lookAt
        = specDisplayedWorldPosition F st.targetRotation s
    ∧ (zoomToSphereBasic F bst sphereId).cameraTarget.lookAt
        = specDisplayedWorldPosition F bst.targetRotation t := by
  refine ⟨?_, fun hsp => ?_, rfl, ?_⟩
  · unfold performZoomToSphere
    rw [hfind]
    dsimp only
    exact rfl
  · unfold settleFire
    rw [hsp]
    dsimp only
    rw [hfind]
    dsimp only
    exact rfl
  · unfold zoomToSphereBasic
    rw [hbfind]
    dsimp only
    exact rfl

/-- Witness for C1 at anchor 4 (Carpet) of the seeded registry, with a
settle timeout scheduled for it. -/
theorem claim_C1_world_position_witness :
    (findSphere cam4.spheres 4 = some ⟨4, -0.4, 0.1, 1.5, true, "#96ceb4", "Carpet"⟩
      ∧ findSphere bas0.spheres 4 = some ⟨4, -0.4, 0.1, 1.5, true, "#96ceb4", "Carpet"⟩
      ∧ cam4.settlePending = some 4)
    ∧ (performZoomToSphere F0 cam4 4).cameraTarget.lookAt
        = specDisplayedWorldPosition F0 cam4.targetRotation
            ⟨4, -0.4, 0.1, 1.5, true, "#96ceb4", "Carpet"⟩
    ∧ (settleFire F0 cam4).cameraTarget.lookAt
        = specDisplayedWorldPosition F0 cam4.targetRotation
            ⟨4, -0.4, 0.1, 1.5, true, "#96ceb4", "Carpet"⟩
    ∧ (zoomToSphereBasic F0 bas0 4).cameraTarget.lookAt
        = specDisplayedWorldPosition F0 bas0.targetRotation
            ⟨4, -0.4, 0.1, 1.5, true, "#96ceb4", "Carpet"⟩ := by
  have h := claim_C1_world_position F0 cam4 bas0 4
    ⟨4, -0.4, 0.1, 1.5, true, "#96ceb4", "Carpet"⟩
    ⟨4, -0.4, 0.1, 1.5, true, "#96ceb4", "Carpet"⟩ rfl rfl
  exact ⟨⟨rfl, rfl, rfl⟩, h.1, h.2.1 rfl, h.2.2.2⟩

/-- C1 (counterexample): with `Ftrig` (true cosine/sine on the two angles
involved) and a state whose smoothed displayed rotation (a quarter turn)
lags the raw target rotation 0, the focus-pose computation centers on the
anchor world position at the raw target rotation, `(-0.4, 0.1, 1.5)`,
which differs from the spec's formula at the displayed rotation,
`(-1.5, 0.1, -0.4)` — refuting that θ is the current displayed rotation. -/
theorem claim_C1_counterexample :
    (performZoomToSphere Ftrig cam1 4).cameraTarget.lookAt = ⟨-0.4, 0.1, 1.5⟩
    ∧ specDisplayedWorldPosition Ftrig cam1.displayedRotation
        ⟨4, -0.4, 0.1, 1.5, true, "#96ceb4", "Carpet"⟩ = ⟨-1.5, 0.1, -0.4⟩
    ∧ (⟨-0.4, 0.1, 1.5⟩ : Vec3) ≠ ⟨-1.5, 0.1, -0.4⟩ := by
  have hf : findSphere cam1.spheres 4 = some ⟨4, -0.4, 0.1, 1.5, true, "#96ceb4", "Carpet"⟩ := rfl
  refine ⟨?_, ?_, ?_⟩
  · unfold performZoomToSphere
    rw [hf]
    show (sphereWorld Ftrig cam1.targetRotation _) = _
    unfold sphereWorld
    simp only [Ftrig, cam1, cam0, Vec3.mk.injEq]
    norm_num
  · unfold specDisplayedWorldPosition
    simp only [Ftrig, cam1, cam0, Vec3.mk.injEq]
    norm_num
  · intro h
    have hx := congrArg Vec3.x h
    norm_num at hx

/-- C4 (amended): the LOD variant reports completion exactly when both the
position distance and the look-at distance fall below 0.05 (neither alone
suffices), while the basic variant reports completion exactly when the
position distance falls below 0.1, without examining the look-at
distance. -/
theorem claim_C4_completion :
    ∀ (cp cl : Vec3) (tgt : CameraTarget),
      (lodAnimationComplete cp cl tgt = true ↔
        distSq tgt.position cp < 0.05 ^ 2 ∧ distSq tgt.lookAt cl < 0.05 ^ 2)
      ∧ (0.05 ^ 2 ≤ distSq tgt.lookAt cl → lodAnimationComplete cp cl tgt = false)
      ∧ (0.05 ^ 2 ≤ distSq tgt.position cp → lodAnimationComplete cp cl tgt = false)
      ∧ (basicAnimationComplete cp cl tgt = true ↔ distSq tgt.position cp < 0.1 ^ 2) := by
  intro cp cl tgt
  refine ⟨?_, ?_, ?_, ?_⟩
  · simp [lodAnimationComplete]
  · intro h
    simp only [lodAnimationComplete, decide_eq_false_iff_not]
    exact fun hc => absurd hc.2 (not_lt.mpr h)
  · intro h
    simp only [lodAnimationComplete, decide_eq_false_iff_not]
    exact fun hc => absurd hc.1 (not_lt.mpr h)
  · simp [basicAnimationComplete]

/-- Witness for C4: with the look-at 5√3 units off target, the LOD test
refuses completion even though the position matches exactly. -/
theorem claim_C4_completion_witness :
    ((0.05 : ℚ) ^ 2 ≤ distSq (⟨5, 5, 5⟩ : Vec3) ⟨0, 0, 0⟩)
    ∧ lodAnimationComplete ⟨0, 0, 0⟩ ⟨0, 0, 0⟩ ⟨⟨0, 0, 0⟩, ⟨5, 5, 5⟩, true⟩ = false :=
  ⟨by norm_num [distSq],
    (claim_C4_completion ⟨0, 0, 0⟩ ⟨0, 0, 0⟩ ⟨⟨0, 0, 0⟩, ⟨5, 5, 5⟩, true⟩).2.1
      (by norm_num [distSq])⟩

/-- C4 (counterexample): the basic variant (`AnimatedCamera`) reports the
animation complete when only the position condition holds — the current
look-at is 5√3 units away from the target look-at — refuting that
satisfying one of the two conditions is never sufficient. -/
theorem claim_C4_counterexample :
    basicAnimationComplete ⟨0, 0, 0⟩ ⟨0, 0, 0⟩ ⟨⟨0, 0, 0⟩, ⟨5, 5, 5⟩, true⟩ = true
    ∧ (0.05 : ℚ) ^ 2 ≤ distSq (⟨5, 5, 5⟩ : Vec3) ⟨0, 0, 0⟩
    ∧ (0.1 : ℚ) ^ 2 ≤ distSq (⟨5, 5, 5⟩ : Vec3) ⟨0, 0, 0⟩ := by
  refine ⟨?_, by norm_num [distSq], by norm_num [distSq]⟩
  simp only [basicAnimationComplete, decide_eq_true_eq]
  norm_num [distSq]

/-- C8: the currently focused anchor is forced to high detail, visible,
wireframe on, floating on, with the 32-segment geometry — the maximum the
selector ever emits — regardless of the camera distance. -/
theorem claim_C8_focused_lod :
    (∀ (distance : ℚ) (n : Nat), n ≠ 0 →
      useDistanceLOD distance (some n) (some n)
        = ⟨.high, true, true, true, ⟨32, 32⟩⟩)
    ∧ ∀ (d : ℚ) (f i : Option Nat),
        (useDistanceLOD d f i).geometryDetail.widthSegments ≤ 32
        ∧ (useDistanceLOD d f i).geometryDetail.heightSegments ≤ 32 := by
  constructor
  · intro distance n h
    simp [useDistanceLOD, h]
  · intro d f i
    unfold useDistanceLOD
    dsimp only
    split_ifs <;> exact ⟨by decide, by decide⟩

/-- Witness for C8: focused sphere 3 at distance 100 still gets the full
record. -/
theorem claim_C8_focused_lod_witness :
    ((3 : Nat) ≠ 0)
    ∧ useDistanceLOD 100 (some 3) (some 3)
        = ⟨.high, true, true, true, ⟨32, 32⟩⟩ :=
  ⟨by decide, claim_C8_focused_lod.1 100 3 (by decide)⟩

lemma resetAllSpheres_forall (rand : Nat → ℚ) (hr : ∀ n, 0 ≤ rand n ∧ rand n < 1) :
    ∀ (k : Nat) (spheres : List SpherePosition),
      List.Forall₂ (fun s u => u.id = s.id ∧ u.name = s.name ∧ u.color = s.color
        ∧ -6 ≤ u.x ∧ u.x < 6 ∧ -1 ≤ u.y ∧ u.y < 5 ∧ -6 ≤ u.z ∧ u.z < 6)
        spheres (resetAllSpheres rand k spheres) := by
  intro k spheres
  induction spheres generalizing k with
  | nil => exact List.Forall₂.nil
  | cons s rest ih =>
    refine List.Forall₂.cons ⟨rfl, rfl, rfl, ?_, ?_, ?_, ?_, ?_, ?_⟩ (ih (k + 3))
    · linarith [(hr k).1]
    · linarith [(hr k).2]
    · linarith [(hr (k + 1)).1]
    · linarith [(hr (k + 1)).2]
    · linarith [(hr (k + 2)).1]
    · linarith [(hr (k + 2)).2]

lemma resetAllSpheresLOD_forall (rand : Nat → ℚ) (hr : ∀ n, 0 ≤ rand n ∧ rand n < 1) :
    ∀ (k : Nat) (spheres : List SpherePosition),
      List.Forall₂ (fun s u => u.id = s.id ∧ u.name = s.name ∧ u.color = s.color
        ∧ -8 ≤ u.x ∧ u.x < 8 ∧ -2 ≤ u.y ∧ u.y < 6 ∧ -8 ≤ u.z ∧ u.z < 8)
        spheres (resetAllSpheresLOD rand k spheres) := by
  intro k spheres
  induction spheres generalizing k with
  | nil => exact List.Forall₂.nil
  | cons s rest ih =>
    refine List.Forall₂.cons ⟨rfl, rfl, rfl, ?_, ?_, ?_, ?_, ?_, ?_⟩ (ih (k + 3))
    · linarith [(hr k).1]
    · linarith [(hr k).2]
    · linarith [(hr (k + 1)).1]
    · linarith [(hr (k + 1)).2]
    · linarith [(hr (k + 2)).1]
    · linarith [(hr (k + 2)).2]

/-- C9: `resetAll` preserves every anchor's id/name/color (and pairs each
input anchor with its output positionally, so all sixteen triples of the
registry survive) while re-randomizing x, y, z within the authored
bounds — x, z in [-6, 6) and y in [-1, 5) for the basic variant, x, z in
[-8, 8) and y in [-2, 6) for the LOD variant — for any `Math.random`
stream taking values in [0, 1). -/
theorem claim_C9_resetAll :
    ∀ (rand : Nat → ℚ), (∀ n, 0 ≤ rand n ∧ rand n < 1) →
      List.Forall₂ (fun s u => u.id = s.id ∧ u.name = s.name ∧ u.color = s.color
        ∧ -6 ≤ u.x ∧ u.x < 6 ∧ -1 ≤ u.y ∧ u.y < 5 ∧ -6 ≤ u.z ∧ u.z < 6)
        initialSpheres (resetAllSpheres rand 0 initialSpheres)
      ∧ List.Forall₂ (fun s u => u.id = s.id ∧ u.name = s.name ∧ u.color = s.color
        ∧ -8 ≤ u.x ∧ u.x < 8 ∧ -2 ≤ u.y ∧ u.y < 6 ∧ -8 ≤ u.z ∧ u.z < 8)
        initialSpheres (resetAllSpheresLOD rand 0 initialSpheres) :=
  fun rand hr =>
    ⟨resetAllSpheres_forall rand hr 0 initialSpheres,
     resetAllSpheresLOD_forall rand hr 0 initialSpheres⟩

/-- Witness for C9 with the constant stream 1/2. -/
theorem claim_C9_resetAll_witness :
    (∀ n : Nat, (0 : ℚ) ≤ (fun _ => (1 : ℚ) / 2) n ∧ (fun _ => (1 : ℚ) / 2) n < 1)
    ∧ List.Forall₂ (fun s u => u.id = s.id ∧ u.name = s.name ∧ u.color = s.color
        ∧ -6 ≤ u.x ∧ u.x < 6 ∧ -1 ≤ u.y ∧ u.y < 5 ∧ -6 ≤ u.z ∧ u.z < 6)
        initialSpheres (resetAllSpheres (fun _ => (1 : ℚ) / 2) 0 initialSpheres)
    ∧ List.Forall₂ (fun s u => u.id = s.id ∧ u.name = s.name ∧ u.color = s.color
        ∧ -8 ≤ u.x ∧ u.x < 8 ∧ -2 ≤ u.y ∧ u.y < 6 ∧ -8 ≤ u.z ∧ u.z < 8)
        initialSpheres (resetAllSpheresLOD (fun _ => (1 : ℚ) / 2) 0 initialSpheres) :=
  ⟨fun n => by norm_num,
    (claim_C9_resetAll (fun _ => (1 : ℚ) / 2) (fun n => by norm_num)).1,
    (claim_C9_resetAll (fun _ => (1 : ℚ) / 2) (fun n => by norm_num)).2⟩

end TinyHome
